import Mathlib

/-!
Verification development for the SmartHR backend (application/interview
lifecycle engine and AI match scoring).

The definitions below are a shallow embedding of the Python/Django source:

  * `apps/applications/models.py`      (Application, ApplicationStatusHistory)
  * `apps/applications/serializers.py` (ApplicationCreateSerializer,
                                        ApplicationStatusUpdateSerializer)
  * `apps/applications/views.py`       (ApplicationWithdrawView,
                                        ApplicationStatusUpdateView,
                                        ShortlistCandidatesView,
                                        BulkStatusUpdateView,
                                        ApplicationCreateView)
  * `apps/interviews/views.py`         (InterviewCreateView, InterviewUpdateView,
                                        InterviewCancelView, InterviewRescheduleView)
  * `apps/common/ai_service.py`        (AIService.calculate_match_score)
  * `apps/applications/tasks.py`       (calculate_ai_match_score)

Statuses are kept as strings, exactly as Django stores them in CharFields,
because the discrepancy between the serializer transition table and
`Application.STATUS_CHOICES` is string-level.  Timestamps are modelled as
natural numbers (`timezone.now()` becomes an explicit `now` argument).
Python floats are modelled as rationals.  Each HTTP handler becomes a pure
function returning `Except ApiError r`, where on success `r` carries the
updated records and the list of `ApplicationStatusHistory` rows the handler
created; returning `.error` models Django/DRF aborting the request before
any write happens.
-/

namespace SmartHR

/-- Errors surfaced by the request handlers.  DRF serializer failures are
`validation`/`invalidChoice`/`invalidTransition` (all HTTP 400), manual
`Response(..., HTTP_400_BAD_REQUEST)` bodies are `badRequest`,
`get_object_or_404` misses are `notFound` (404), and permission-class
rejections are `forbidden` (403). -/
inductive ApiError where
  | invalidChoice (value : String)
  | invalidTransition (current requested : String)
  | validation (msg : String)
  | badRequest (msg : String)
  | notFound
  | forbidden
deriving DecidableEq, Repr

instance {ε α : Type} [DecidableEq ε] [DecidableEq α] : DecidableEq (Except ε α) := by
  intro a b
  cases a <;> cases b
  case error.error e₁ e₂ =>
    exact if h : e₁ = e₂ then .isTrue (by rw [h]) else .isFalse (fun hh => by cases hh; exact h rfl)
  case error.ok e₁ a₂ => exact .isFalse (fun hh => by cases hh)
  case ok.error a₁ e₂ => exact .isFalse (fun hh => by cases hh)
  case ok.ok a₁ a₂ =>
    exact if h : a₁ = a₂ then .isTrue (by rw [h]) else .isFalse (fun hh => by cases hh; exact h rfl)

/-- Job record (`apps/jobs/models.py`); only the fields the application and
interview engines read. -/
structure Job where
  id : Nat
  employer : Nat
  status : String
  required_skills : Finset String
  preferred_skills : Finset String
  experience_years_min : Nat
  applications_count : Nat
deriving DecidableEq

/-- Result payload of `AIService.calculate_match_score` (the `analysis` dict).
Python builds `matching_skills`/`missing_skills` from `set` values, so they
are modelled as `Finset`. -/
structure MatchAnalysis where
  matching_skills : Finset String
  missing_skills : Finset String
  experience_match : String
  recommendations : List String
deriving DecidableEq

/-- Application record (`apps/applications/models.py`). -/
structure Application where
  id : Nat
  jobId : Nat
  userId : Nat
  cover_letter : String
  status : String
  ai_match_score : Option ℚ
  ai_analysis : Option MatchAnalysis
  rejection_reason : String
  reviewed_at : Option Nat
  ai_analyzed_at : Option Nat
deriving DecidableEq

/-- ApplicationStatusHistory record (`apps/applications/models.py`). -/
structure StatusHistory where
  applicationId : Nat
  old_status : String
  new_status : String
  changed_by : Option Nat
  comment : String
deriving DecidableEq

/-- Interview record (`apps/interviews/models.py`). -/
structure Interview where
  id : Nat
  applicationId : Nat
  interview_type : String
  status : String
  scheduled_at : Nat
  duration_minutes : Nat
  location : String
  meeting_url : String
  interviewer : Option Nat
  interviewer_feedback : String
  interviewer_rating : Option Nat
  notes : String
  completed_at : Option Nat
deriving DecidableEq

/-- `Application.STATUS_CHOICES` (models.py lines 11-21): the nine statuses a
DRF `ChoiceField` over these choices will accept.  Note `no_show` is absent. -/
def STATUS_CHOICES : List String :=
  ["submitted", "under_review", "shortlisted", "interview_scheduled",
   "interviewed", "offer_sent", "accepted", "rejected", "withdrawn"]

/-- `Interview.STATUS_CHOICES` (interviews/models.py lines 18-25). -/
def INTERVIEW_STATUS_CHOICES : List String :=
  ["scheduled", "in_progress", "completed", "cancelled", "rescheduled", "no_show"]

/-- `Interview.TYPE_CHOICES` (interviews/models.py lines 11-16). -/
def INTERVIEW_TYPE_CHOICES : List String :=
  ["phone", "video", "in_person", "technical"]

/-- The `valid_transitions` dict of
`ApplicationStatusUpdateSerializer.validate_status`, together with the
`.get(current_status, [])` default for keys that are not present
(terminal states map to the empty list). -/
def valid_transitions (s : String) : List String :=
  if s == "submitted" then ["under_review", "rejected"]
  else if s == "under_review" then ["shortlisted", "rejected"]
  else if s == "shortlisted" then ["interview_scheduled", "rejected"]
  else if s == "interview_scheduled" then ["interviewed", "no_show", "rejected"]
  else if s == "interviewed" then ["offer_sent", "rejected"]
  else if s == "offer_sent" then ["accepted", "rejected"]
  else []

/-- Body of a PATCH to `ApplicationStatusUpdateView`
(`ApplicationStatusUpdateSerializer`); `comment` and `rejection_reason`
default to the empty string, as in `validated_data.get(..., '')`. -/
structure StatusUpdateRequest where
  status : String
  comment : String := ""
  rejection_reason : String := ""

/-- `ApplicationStatusUpdateView.patch` applied to the fetched application:
first the serializer `ChoiceField` checks the requested status against
`Application.STATUS_CHOICES`, then `validate_status` checks the transition
table (allowing a self-transition), and only then the view mutates the
application, stamps `reviewed_at` on first entry to `under_review`, stores
`rejection_reason` on entry to `rejected`, and creates exactly one
`ApplicationStatusHistory` row. -/
def applyStatusUpdate (actor now : Nat) (app : Application) (req : StatusUpdateRequest) :
    Except ApiError (Application × List StatusHistory) :=
  if req.status ∉ STATUS_CHOICES then
    .error (.invalidChoice req.status)
  else if req.status ∉ valid_transitions app.status ∧ req.status ≠ app.status then
    .error (.invalidTransition app.status req.status)
  else
    let app1 : Application :=
      { app with
        status := req.status
        reviewed_at :=
          if req.status = "under_review" ∧ app.reviewed_at = none then some now
          else app.reviewed_at
        rejection_reason :=
          if req.status = "rejected" then req.rejection_reason
          else app.rejection_reason }
    .ok (app1, [⟨app.id, app.status, req.status, some actor, req.comment⟩])

/-- `ApplicationWithdrawView.post` applied to the fetched application (the
view scopes the lookup to `user=request.user`, so `user` is the candidate). -/
def withdrawApplication (user : Nat) (app : Application) :
    Except ApiError (Application × List StatusHistory) :=
  if app.status ∈ ["accepted", "rejected", "withdrawn"] then
    .error (.badRequest "Cannot withdraw this application")
  else
    .ok ({ app with status := "withdrawn" },
         [⟨app.id, app.status, "withdrawn", some user, "Application withdrawn by candidate"⟩])

/-- Body of a POST to `ApplicationCreateView` (`ApplicationCreateSerializer`). -/
structure ApplicationCreateRequest where
  job_id : Nat
  cover_letter : String := ""

/-- `ApplicationCreateView` together with `ApplicationCreateSerializer`:
`validate_job_id` requires the job to exist and be `open`, `validate` rejects
a duplicate (job, user) pair whatever the existing status, and only then
`perform_create` creates the application in status `submitted`, increments
`job.applications_count`, and enqueues `calculate_ai_match_score.delay`
(modelled by the returned list of enqueued application ids). -/
def submitApplication (user : Nat) (jobs : List Job) (apps : List Application)
    (req : ApplicationCreateRequest) (newId : Nat) :
    Except ApiError (Application × Job × List Nat) :=
  match jobs.find? (fun j => j.id == req.job_id) with
  | none => .error (.validation "Job not found")
  | some job =>
    if job.status ≠ "open" then
      .error (.validation "Job is not open for applications")
    else if ∃ a ∈ apps, a.userId = user ∧ a.jobId = req.job_id then
      .error (.validation "You have already applied to this job")
    else
      .ok ({ id := newId, jobId := job.id, userId := user, cover_letter := req.cover_letter,
             status := "submitted", ai_match_score := none, ai_analysis := none,
             rejection_reason := "", reviewed_at := none, ai_analyzed_at := none },
           { job with applications_count := job.applications_count + 1 },
           [newId])

/-- Does `employer` own the job of application `a`?  This is the
`job__employer=request.user` queryset scoping used by the employer views. -/
def ownsApp (employer : Nat) (jobs : List Job) (a : Application) : Bool :=
  (jobs.find? (fun j => j.id == a.jobId)).elim false (fun j => j.employer == employer)

/-- Body of a POST to `BulkStatusUpdateView`; `status` is `Option` because the
view reads it with `request.data.get('status')`. -/
structure BulkRequest where
  application_ids : List Nat
  status : Option String := none
  comment : String := ""

/-- `BulkStatusUpdateView.post`: after the presence check on
`application_ids` and `status` (`if not application_ids or not new_status`),
every application whose id is in the list and whose job belongs to the
requesting employer gets the requested status assigned directly —
no serializer, hence no choice or transition validation — plus one history
row; the returned count is incremented once per such application. -/
def bulkStatusUpdate (employer : Nat) (jobs : List Job) (apps : List Application)
    (req : BulkRequest) :
    Except ApiError (List Application × List StatusHistory × Nat) :=
  if req.application_ids = [] ∨ req.status.getD "" = "" then
    .error (.badRequest "application_ids and status are required")
  else
    let new_status := req.status.getD ""
    let targets := apps.filter (fun a => req.application_ids.contains a.id && ownsApp employer jobs a)
    .ok (targets.map (fun a => { a with status := new_status }),
         targets.map (fun a => ⟨a.id, a.status, new_status, some employer, req.comment⟩),
         targets.length)

/-- Score an application for the shortlist ordering; applications reaching
the ordering step always carry a score (`ai_match_score__isnull=False`). -/
def getScore (a : Application) : ℚ := a.ai_match_score.getD 0

/-- Ordering realising Django `order_by('-ai_match_score')`: higher scores
first. -/
def scoreDesc (a b : Application) : Prop := getScore b ≤ getScore a

instance : DecidableRel scoreDesc :=
  fun a b => inferInstanceAs (Decidable (getScore b ≤ getScore a))

instance : IsTotal Application scoreDesc :=
  ⟨fun a b => le_total (getScore b) (getScore a)⟩

instance : IsTrans Application scoreDesc :=
  ⟨fun _ _ _ hab hbc => le_trans hbc hab⟩

/-- `ShortlistCandidatesView.get`: resolve the job scoped to the requesting
employer (404 on miss), then take the applications of that job having a
non-null `ai_match_score`, order them by descending score, and keep the
first 10. -/
def listShortlist (employer : Nat) (jobs : List Job) (apps : List Application)
    (job_id : Nat) : Except ApiError (List Application) :=
  match jobs.find? (fun j => j.id == job_id && j.employer == employer) with
  | none => .error .notFound
  | some job =>
    .ok ((List.insertionSort scoreDesc
           (apps.filter (fun a => a.jobId == job.id && a.ai_match_score.isSome))).take 10)

/-- Body of a POST to `InterviewCreateView` (`InterviewCreateSerializer`). -/
structure InterviewCreateRequest where
  application_id : Nat
  interview_type : String := "video"
  scheduled_at : Nat
  duration_minutes : Nat := 60
  location : String := ""
  meeting_url : String := ""
  notes : String := ""

/-- `InterviewCreateView` together with
`InterviewCreateSerializer.validate_application_id`: the application must
exist and its job must belong to the requesting employer (both rejections
are serializer `ValidationError`s, i.e. HTTP 400); then `perform_create`
creates the interview with the requester as interviewer and, if the
application is not already `interview_scheduled`, sets it there — saving the
application without creating any `ApplicationStatusHistory` row. -/
def createInterview (employer : Nat) (jobs : List Job) (apps : List Application)
    (req : InterviewCreateRequest) (newId : Nat) :
    Except ApiError (Interview × Application × List StatusHistory) :=
  match apps.find? (fun a => a.id == req.application_id) with
  | none => .error (.validation "Application not found")
  | some app =>
    match jobs.find? (fun j => j.id == app.jobId) with
    | none => .error .notFound
    | some job =>
      if job.employer ≠ employer then
        .error (.validation "You don\x27t have permission for this application")
      else
        let iv : Interview :=
          { id := newId, applicationId := app.id, interview_type := req.interview_type,
            status := "scheduled", scheduled_at := req.scheduled_at,
            duration_minutes := req.duration_minutes, location := req.location,
            meeting_url := req.meeting_url, interviewer := some employer,
            interviewer_feedback := "", interviewer_rating := none,
            notes := req.notes, completed_at := none }
        if app.status ≠ "interview_scheduled" then
          .ok (iv, { app with status := "interview_scheduled" }, [])
        else
          .ok (iv, app, [])

/-- Body of a PATCH to `InterviewUpdateView` (`InterviewUpdateSerializer`);
absent fields are `none` and leave the record untouched. -/
structure InterviewUpdateRequest where
  interview_type : Option String := none
  status : Option String := none
  scheduled_at : Option Nat := none
  duration_minutes : Option Nat := none
  location : Option String := none
  meeting_url : Option String := none
  interviewer_feedback : Option String := none
  interviewer_rating : Option Nat := none
  notes : Option String := none

/-- A provided value that is not among the model choices fails the
serializer choice validation. -/
def badChoice (choices : List String) (v : Option String) : Bool :=
  v.elim false (fun s => !(choices.contains s))

/-- Effect of `serializer.save()` in `InterviewUpdateView`: apply the
provided fields to the interview. `completed_at` is read-only in the
serializer and cannot be set by the request. -/
def applyInterviewUpdate (iv : Interview) (req : InterviewUpdateRequest) : Interview :=
  { iv with
    interview_type := req.interview_type.getD iv.interview_type
    status := req.status.getD iv.status
    scheduled_at := req.scheduled_at.getD iv.scheduled_at
    duration_minutes := req.duration_minutes.getD iv.duration_minutes
    location := req.location.getD iv.location
    meeting_url := req.meeting_url.getD iv.meeting_url
    interviewer_feedback := req.interviewer_feedback.getD iv.interviewer_feedback
    interviewer_rating :=
      match req.interviewer_rating with
      | some r => some r
      | none => iv.interviewer_rating
    notes := req.notes.getD iv.notes }

/-- `InterviewUpdateView.perform_update` applied to the fetched interview and
its application: after the serializer saves the provided fields, if the
saved status is `completed` and `completed_at` is still unset, `completed_at`
is stamped with `now`, and — only inside that same branch — the application
is moved to `interviewed` when it currently is `interview_scheduled`.
No `ApplicationStatusHistory` row is ever created here. -/
def updateInterview (now : Nat) (iv : Interview) (app : Application)
    (req : InterviewUpdateRequest) :
    Except ApiError (Interview × Application × List StatusHistory) :=
  if badChoice INTERVIEW_STATUS_CHOICES req.status then
    .error (.invalidChoice (req.status.getD ""))
  else if badChoice INTERVIEW_TYPE_CHOICES req.interview_type then
    .error (.invalidChoice (req.interview_type.getD ""))
  else
    let iv1 := applyInterviewUpdate iv req
    if iv1.status = "completed" ∧ iv1.completed_at = none then
      let iv2 := { iv1 with completed_at := some now }
      if app.status = "interview_scheduled" then
        .ok (iv2, { app with status := "interviewed" }, [])
      else
        .ok (iv2, app, [])
    else
      .ok (iv1, app, [])

/-- `InterviewCancelView.post` applied to the fetched interview: forbidden
when the interview is already `completed` or `cancelled`, otherwise the
status becomes `cancelled`. -/
def cancelInterview (iv : Interview) : Except ApiError Interview :=
  if iv.status ∈ ["completed", "cancelled"] then
    .error (.badRequest "Cannot cancel this interview")
  else
    .ok { iv with status := "cancelled" }

/-- `InterviewRescheduleView.post` applied to the fetched interview:
`scheduled_at` is required (`request.data.get('scheduled_at')`), and when
provided the view unconditionally stores it and sets the status to
`rescheduled` — there is no check on the current status. -/
def rescheduleInterview (iv : Interview) (scheduled_at : Option Nat) :
    Except ApiError Interview :=
  match scheduled_at with
  | none => .error (.badRequest "scheduled_at is required")
  | some t => .ok { iv with scheduled_at := t, status := "rescheduled" }

/-- Candidate profile attributes read by `calculate_ai_match_score`
(skills are converted to a Python `set`, hence a `Finset`; the other
attributes only matter through emptiness or length). -/
structure CandidateData where
  skills : Finset String
  education : List String
  experience : List String
  certifications : List String
  languages : List String
deriving DecidableEq

/-- Job requirements read by `AIService.calculate_match_score`. -/
structure JobRequirements where
  required_skills : Finset String
  preferred_skills : Finset String
  experience_years_min : Nat
deriving DecidableEq

/-- Return value of `AIService.calculate_match_score`. -/
structure MatchResult where
  score : ℚ
  analysis : MatchAnalysis
deriving DecidableEq

/-- The running `score` accumulated by `AIService.calculate_match_score`
before the final `min(round(score, 2), 100)`: 60% weight on required-skill
overlap, 20% on preferred-skill overlap, 20 points for sufficient
experience, 10 for any education, 5 for any certifications (so the raw sum
can reach 115). -/
def rawMatchScore (c : CandidateData) (j : JobRequirements) : ℚ :=
  (if j.required_skills.card ≠ 0 then
     ((c.skills ∩ j.required_skills).card : ℚ) / (j.required_skills.card : ℚ) * 100 * (6 / 10)
   else 0)
  + (if j.preferred_skills.card ≠ 0 then
       ((c.skills ∩ j.preferred_skills).card : ℚ) / (j.preferred_skills.card : ℚ) * 100 * (2 / 10)
     else 0)
  + (if j.experience_years_min ≤ c.experience.length then (20 : ℚ) else 0)
  + (if c.education ≠ [] then (10 : ℚ) else 0)
  + (if c.certifications ≠ [] then (5 : ℚ) else 0)

/-- Python `round(x, 2)` modelled over `ℚ` (rounding to the nearest
hundredth; the claims settled here do not depend on the tie-breaking rule). -/
def round2 (q : ℚ) : ℚ := ((round (q * 100) : ℤ) : ℚ) / 100

/-- `AIService.calculate_match_score`: the returned score is
`min(round(score, 2), 100)` and the analysis dict is filled in along the
way (skill lists only when `required_skills` is non-empty). -/
def calculate_match_score (c : CandidateData) (j : JobRequirements) : MatchResult :=
  { score := min (round2 (rawMatchScore c j)) 100
    analysis :=
      { matching_skills :=
          if j.required_skills.card ≠ 0 then c.skills ∩ j.required_skills else ∅
        missing_skills :=
          if j.required_skills.card ≠ 0 then j.required_skills \ (c.skills ∩ j.required_skills)
          else ∅
        experience_match :=
          if j.experience_years_min ≤ c.experience.length then
            "Meets experience requirements"
          else "Below required experience level"
        recommendations :=
          if j.experience_years_min ≤ c.experience.length then []
          else ["Gain more experience in relevant field"] } }

/-- The async task `calculate_ai_match_score` (applications/tasks.py).
`fetch` is the data gathered from the application, profile and job records;
`none` models any of the exception paths (missing application/profile,
adapter failure), in which case the task returns a failure dict and the
application row is not touched.  On success the task stores exactly the
adapter score and analysis and stamps `ai_analyzed_at`.  The `Bool` is the
`success` flag of the returned dict. -/
def calculate_ai_match_score (app : Application)
    (fetch : Option (CandidateData × JobRequirements)) (now : Nat) :
    Application × Bool :=
  match fetch with
  | none => (app, false)
  | some (c, j) =>
    let r := calculate_match_score c j
    ({ app with
       ai_match_score := some r.score
       ai_analysis := some r.analysis
       ai_analyzed_at := some now }, true)

/-! Concrete records used to evaluate the operations at specific inputs. -/

/-- An open job owned by employer 1. -/
def jobA : Job :=
  { id := 10, employer := 1, status := "open", required_skills := {"Go", "SQL"},
    preferred_skills := ∅, experience_years_min := 0, applications_count := 3 }

/-- An application of candidate 7 to `jobA`, in status `submitted`. -/
def appSubmitted : Application :=
  { id := 100, jobId := 10, userId := 7, cover_letter := "", status := "submitted",
    ai_match_score := none, ai_analysis := none, rejection_reason := "",
    reviewed_at := none, ai_analyzed_at := none }

/-- The same application in status `interview_scheduled`. -/
def appIS : Application := { appSubmitted with status := "interview_scheduled" }

/-- The same application in status `shortlisted`. -/
def appShortlisted : Application := { appSubmitted with status := "shortlisted" }

/-- The same application in status `offer_sent`. -/
def appOfferSent : Application := { appSubmitted with status := "offer_sent" }

/-- The same application in status `withdrawn`. -/
def appWithdrawn : Application := { appSubmitted with status := "withdrawn" }

/-- A second application to `jobA` with AI match score 80. -/
def appScored80 : Application :=
  { appSubmitted with id := 101, userId := 8, ai_match_score := some 80 }

/-- A third application to `jobA` with AI match score 90. -/
def appScored90 : Application :=
  { appSubmitted with id := 102, userId := 9, ai_match_score := some 90 }

/-- Result of moving `appSubmitted` to `under_review` at time 0. -/
def appUR : Application :=
  { appSubmitted with status := "under_review", reviewed_at := some 0 }

/-- History row recorded by that move. -/
def histUR : StatusHistory :=
  { applicationId := 100, old_status := "submitted", new_status := "under_review",
    changed_by := some 1, comment := "" }

/-- Result of withdrawing `appShortlisted`. -/
def appWd : Application := { appShortlisted with status := "withdrawn" }

/-- History row recorded by that withdrawal. -/
def histWd : StatusHistory :=
  { applicationId := 100, old_status := "shortlisted", new_status := "withdrawn",
    changed_by := some 7, comment := "Application withdrawn by candidate" }

/-- The interview created by `createInterview 1 [jobA] [appShortlisted]`
with id 500 at time 50. -/
def ivNew : Interview :=
  { id := 500, applicationId := 100, interview_type := "video", status := "scheduled",
    scheduled_at := 50, duration_minutes := 60, location := "", meeting_url := "",
    interviewer := some 1, interviewer_feedback := "", interviewer_rating := none,
    notes := "", completed_at := none }

/-- `ivNew` after its first completion at time 5. -/
def ivDone : Interview := { ivNew with status := "completed", completed_at := some 5 }

/-- `appIS` after the interview-completion cascade. -/
def appInterviewed : Application := { appIS with status := "interviewed" }

/-- A second interview scheduled for the same application. -/
def ivSecond : Interview := { ivNew with id := 501, scheduled_at := 60 }

/-- A candidate matching every scoring component of
`AIService.calculate_match_score`. -/
def candidateFull : CandidateData :=
  { skills := {"Go"}, education := ["BSc"], experience := ["job1"],
    certifications := ["cert1"], languages := [] }

/-- Requirements fully covered by `candidateFull`. -/
def jobReqSmall : JobRequirements :=
  { required_skills := {"Go"}, preferred_skills := {"Go"}, experience_years_min := 0 }

/-! Claim theorems. -/

/-- C1: the serializer transition table (`valid_transitions`) does allow
`interview_scheduled → no_show`, but `no_show` is missing from
`Application.STATUS_CHOICES`, so on an application in status
`interview_scheduled` the employer status-update operation rejects a request
for `no_show` at the `ChoiceField` ("not a valid choice") before the
transition check ever runs — the transition the table and the spec promise
can never be taken, and the failure is not an InvalidTransition report. -/
theorem noShow_request_rejected :
    "no_show" ∈ valid_transitions "interview_scheduled" ∧
    "no_show" ∉ STATUS_CHOICES ∧
    applyStatusUpdate 1 0 appIS { status := "no_show" } =
      .error (.invalidChoice "no_show") := by
  refine ⟨by decide, by decide, by decide⟩

/-- C7: candidate withdrawal fails with the CannotWithdraw error exactly when
the current status is `accepted`, `rejected` or `withdrawn`; from any other
status it succeeds, sets the status to `withdrawn`, and appends exactly one
history entry carrying the system-generated comment; and exactly six of the
nine statuses of `Application.STATUS_CHOICES` are outside the failing set. -/
theorem withdraw_spec (user : Nat) (app : Application) :
    (withdrawApplication user app =
        .error (.badRequest "Cannot withdraw this application") ↔
      app.status ∈ ["accepted", "rejected", "withdrawn"]) ∧
    (app.status ∉ ["accepted", "rejected", "withdrawn"] →
      withdrawApplication user app =
        .ok ({ app with status := "withdrawn" },
             [{ applicationId := app.id, old_status := app.status,
                new_status := "withdrawn", changed_by := some user,
                comment := "Application withdrawn by candidate" }])) ∧
    (STATUS_CHOICES.filter
      (fun s => !(["accepted", "rejected", "withdrawn"].contains s))).length = 6 := by
  refine ⟨?_, ?_, by decide⟩
  · unfold withdrawApplication
    split
    next h => simp [h]
    next h => simp [h]
  · intro h
    unfold withdrawApplication
    split
    next h2 => exact absurd h2 h
    next h2 => rfl

/-- Witness for C7 at a concrete input: an application in status
`offer_sent` (outside the failing set) is withdrawn successfully with the
system comment. -/
theorem withdraw_spec_witness :
    appOfferSent.status ∉ ["accepted", "rejected", "withdrawn"] ∧
    withdrawApplication 7 appOfferSent =
      .ok ({ appOfferSent with status := "withdrawn" },
           [{ applicationId := appOfferSent.id, old_status := appOfferSent.status,
              new_status := "withdrawn", changed_by := some 7,
              comment := "Application withdrawn by candidate" }]) :=
  ⟨by decide, (withdraw_spec 7 appOfferSent).2.1 (by decide)⟩

/-- C10: rescheduling an interview with a provided `scheduled_at` always
succeeds — from every status, including `completed` and `cancelled`, the two
statuses from which cancel is refused — setting the status to `rescheduled`
and the new time while leaving `completed_at` and every other field
unchanged (the record-update equations say exactly that); the only failure
is a missing `scheduled_at`. -/
theorem reschedule_spec :
    (∀ (iv : Interview) (t : Nat),
      rescheduleInterview iv (some t) =
        .ok { iv with scheduled_at := t, status := "rescheduled" }) ∧
    (∀ iv : Interview,
      rescheduleInterview iv none = .error (.badRequest "scheduled_at is required")) ∧
    (∀ iv : Interview,
      cancelInterview { iv with status := "completed" } =
          .error (.badRequest "Cannot cancel this interview") ∧
      cancelInterview { iv with status := "cancelled" } =
          .error (.badRequest "Cannot cancel this interview")) ∧
    (∀ (iv : Interview) (t : Nat),
      rescheduleInterview { iv with status := "completed" } (some t) =
          .ok { iv with status := "rescheduled", scheduled_at := t } ∧
      rescheduleInterview { iv with status := "cancelled" } (some t) =
          .ok { iv with status := "rescheduled", scheduled_at := t }) :=
  ⟨fun _ _ => rfl, fun _ => rfl, fun _ => ⟨rfl, rfl⟩, fun _ _ => ⟨rfl, rfl⟩⟩

/-- C6: when an Application already exists for the (job, candidate) pair —
whatever its current status, `withdrawn` and `rejected` included — a second
submission always fails (so no application is created and the counter is not
incremented), and whenever the referenced job exists and is open the error
is precisely the DuplicateApplication rejection of
`ApplicationCreateSerializer.validate`. -/
theorem submit_duplicate_fails (user newId : Nat) (jobs : List Job)
    (apps : List Application) (req : ApplicationCreateRequest)
    (hdup : ∃ a ∈ apps, a.userId = user ∧ a.jobId = req.job_id) :
    (∃ e, submitApplication user jobs apps req newId = .error e) ∧
    (∀ job, jobs.find? (fun j => j.id == req.job_id) = some job →
      job.status = "open" →
      submitApplication user jobs apps req newId =
        .error (.validation "You have already applied to this job")) := by
  unfold submitApplication
  split
  next hfind =>
    refine ⟨⟨_, rfl⟩, fun job hj _ => ?_⟩
    rw [hfind] at hj
    cases hj
  next job hfind =>
    by_cases hopen : job.status ≠ "open"
    · rw [if_pos hopen]
      refine ⟨⟨_, rfl⟩, fun job2 hj hopen2 => ?_⟩
      rw [hfind] at hj
      injection hj with hj
      subst hj
      exact absurd hopen2 hopen
    · rw [if_neg hopen, if_pos hdup]
      exact ⟨⟨_, rfl⟩, fun _ _ _ => rfl⟩

/-- Witness for C6 at a concrete input: candidate 7 already has a withdrawn
application to open job 10, and a second submission is rejected as a
duplicate. -/
theorem submit_duplicate_fails_witness :
    (∃ a ∈ [appWithdrawn],
       a.userId = 7 ∧ a.jobId = (ApplicationCreateRequest.mk 10 "").job_id) ∧
    ([jobA].find? (fun j => j.id == (ApplicationCreateRequest.mk 10 "").job_id) =
       some jobA ∧ jobA.status = "open") ∧
    submitApplication 7 [jobA] [appWithdrawn] (ApplicationCreateRequest.mk 10 "") 101 =
      .error (.validation "You have already applied to this job") :=
  ⟨by decide, ⟨by decide, by decide⟩,
   (submit_duplicate_fails 7 101 [jobA] [appWithdrawn] (ApplicationCreateRequest.mk 10 "")
     (by decide)).2 jobA (by decide) (by decide)⟩

/-- C8: whenever the shortlist query succeeds, it returns at most 10
applications, all of them carrying a non-null `ai_match_score`, and the
returned sequence is non-increasing in that score. -/
theorem shortlist_spec (employer job_id : Nat) (jobs : List Job)
    (apps : List Application) (l : List Application)
    (h : listShortlist employer jobs apps job_id = .ok l) :
    l.length ≤ 10 ∧ (∀ a ∈ l, a.ai_match_score.isSome) ∧
    l.Pairwise (fun a b => getScore b ≤ getScore a) := by
  unfold listShortlist at h
  split at h
  next => exact absurd h (by simp)
  next job _ =>
    injection h with h
    subst h
    refine ⟨List.length_take_le 10 _, ?_, ?_⟩
    · intro a ha
      have h1 : a ∈ List.insertionSort scoreDesc
          (apps.filter (fun a => a.jobId == job.id && a.ai_match_score.isSome)) :=
        (List.take_sublist 10 _).subset ha
      have h2 := (List.mem_insertionSort scoreDesc).1 h1
      have h4 := (List.mem_filter.1 h2).2
      rw [Bool.and_eq_true] at h4
      exact h4.2
    · have hs := List.sorted_insertionSort scoreDesc
        (apps.filter (fun a => a.jobId == job.id && a.ai_match_score.isSome))
      exact (hs.sublist (List.take_sublist 10 _)).imp (fun hab => hab)

/-- Witness for C8 at a concrete input: for job 10 with one unscored and two
scored applications, the query returns the two scored ones in descending
score order. -/
theorem shortlist_spec_witness :
    listShortlist 1 [jobA] [appSubmitted, appScored80, appScored90] 10 =
      .ok [appScored90, appScored80] ∧
    ([appScored90, appScored80].length ≤ 10 ∧
     (∀ a ∈ [appScored90, appScored80], a.ai_match_score.isSome) ∧
     List.Pairwise (fun a b => getScore b ≤ getScore a) [appScored90, appScored80]) :=
  ⟨by decide,
   shortlist_spec 1 10 [jobA] [appSubmitted, appScored80, appScored90]
     [appScored90, appScored80] (by decide)⟩

/-- C2 counterexample: creating an interview for an application in status
`shortlisted` mutates the application status to `interview_scheduled` while
appending NO `ApplicationStatusHistory` entry — refuting the claim that every
accepted status mutation appends exactly one entry. -/
theorem interview_cascade_no_history :
    createInterview 1 [jobA] [appShortlisted]
        { application_id := 100, scheduled_at := 50 } 500 =
      .ok (ivNew, { appShortlisted with status := "interview_scheduled" }, []) ∧
    appShortlisted.status ≠ "interview_scheduled" := by
  exact ⟨by decide, by decide⟩

/-- C2 (amended): the direct operations — employer status update, candidate
withdrawal and bulk update — append exactly one history entry per mutated
application (recording old and new status), but the two interview cascades
(creation forcing `interview_scheduled`, completion forcing `interviewed`)
mutate `Application.status` while appending no history entry at all. -/
theorem history_audit_spec :
    (∀ (actor now : Nat) (app : Application) (req : StatusUpdateRequest) out,
      applyStatusUpdate actor now app req = .ok out →
      out.2 = [{ applicationId := app.id, old_status := app.status,
                 new_status := req.status, changed_by := some actor,
                 comment := req.comment }]) ∧
    (∀ (user : Nat) (app : Application) out,
      withdrawApplication user app = .ok out →
      out.2 = [{ applicationId := app.id, old_status := app.status,
                 new_status := "withdrawn", changed_by := some user,
                 comment := "Application withdrawn by candidate" }]) ∧
    (∀ (employer : Nat) (jobs : List Job) (apps : List Application)
        (req : BulkRequest) out,
      bulkStatusUpdate employer jobs apps req = .ok out →
      out.2.1.length = out.1.length ∧ out.2.2 = out.1.length) ∧
    (∀ (employer newId : Nat) (jobs : List Job) (apps : List Application)
        (req : InterviewCreateRequest) out,
      createInterview employer jobs apps req newId = .ok out →
      out.2.2 = [] ∧ out.2.1.status = "interview_scheduled") ∧
    (∀ (now : Nat) (iv : Interview) (app : Application)
        (req : InterviewUpdateRequest) out,
      updateInterview now iv app req = .ok out → out.2.2 = []) := by
  refine ⟨?_, ?_, ?_, ?_, ?_⟩
  · intro actor now app req out h
    unfold applyStatusUpdate at h
    split at h
    next => exact Except.noConfusion h
    next =>
      split at h
      next => exact Except.noConfusion h
      next =>
        injection h with h
        subst h
        rfl
  · intro user app out h
    unfold withdrawApplication at h
    split at h
    next => exact Except.noConfusion h
    next =>
      injection h with h
      subst h
      rfl
  · intro employer jobs apps req out h
    unfold bulkStatusUpdate at h
    split at h
    next => exact Except.noConfusion h
    next =>
      injection h with h
      subst h
      simp
  · intro employer newId jobs apps req out h
    unfold createInterview at h
    split at h
    next => exact Except.noConfusion h
    next app2 _ =>
      split at h
      next => exact Except.noConfusion h
      next job2 _ =>
        split at h
        next => exact Except.noConfusion h
        next =>
          split at h
          next =>
            injection h with h
            subst h
            exact ⟨rfl, rfl⟩
          next h2 =>
            injection h with h
            subst h
            exact ⟨rfl, not_ne_iff.mp h2⟩
  · intro now iv app req out h
    unfold updateInterview at h
    split at h
    next => exact Except.noConfusion h
    next =>
      split at h
      next => exact Except.noConfusion h
      next =>
        simp only [] at h
        split at h <;> try split at h
        all_goals (injection h with h; subst h; rfl)

/-- Witness for C2 at concrete inputs: one history row for a direct status
update, one for a withdrawal, one per application in a bulk update, and none
for the interview-creation and interview-completion cascades. -/
theorem history_audit_spec_witness :
    (applyStatusUpdate 1 0 appSubmitted { status := "under_review" } =
        .ok (appUR, [histUR]) ∧
      (appUR, [histUR]).2 =
        [{ applicationId := appSubmitted.id, old_status := appSubmitted.status,
           new_status := "under_review", changed_by := some 1, comment := "" }]) ∧
    (withdrawApplication 7 appShortlisted = .ok (appWd, [histWd]) ∧
      (appWd, [histWd]).2 =
        [{ applicationId := appShortlisted.id, old_status := appShortlisted.status,
           new_status := "withdrawn", changed_by := some 7,
           comment := "Application withdrawn by candidate" }]) ∧
    (bulkStatusUpdate 1 [jobA] [appSubmitted]
        { application_ids := [100], status := some "shortlisted" } =
        .ok ([{ appSubmitted with status := "shortlisted" }],
             [{ applicationId := 100, old_status := "submitted",
                new_status := "shortlisted", changed_by := some 1, comment := "" }], 1) ∧
      ([({ appSubmitted with status := "shortlisted" } : Application)],
       [({ applicationId := 100, old_status := "submitted", new_status := "shortlisted",
           changed_by := some 1, comment := "" } : StatusHistory)],
       (1 : Nat)).2.1.length =
        ([({ appSubmitted with status := "shortlisted" } : Application)],
         [({ applicationId := 100, old_status := "submitted", new_status := "shortlisted",
             changed_by := some 1, comment := "" } : StatusHistory)], (1 : Nat)).1.length) ∧
    (createInterview 1 [jobA] [appShortlisted]
        { application_id := 100, scheduled_at := 50 } 500 =
        .ok (ivNew, { appShortlisted with status := "interview_scheduled" }, []) ∧
      ((ivNew, ({ appShortlisted with status := "interview_scheduled" } : Application),
        ([] : List StatusHistory))).2.2 = []) ∧
    (updateInterview 5 ivNew appIS { status := some "completed" } =
        .ok ({ ivNew with status := "completed", completed_at := some 5 },
             { appIS with status := "interviewed" }, []) ∧
      (({ ivNew with status := "completed", completed_at := some 5 } : Interview),
       ({ appIS with status := "interviewed" } : Application),
       ([] : List StatusHistory)).2.2 = []) :=
  ⟨⟨by decide, history_audit_spec.1 1 0 appSubmitted { status := "under_review" }
      (appUR, [histUR]) (by decide)⟩,
   ⟨by decide, history_audit_spec.2.1 7 appShortlisted (appWd, [histWd]) (by decide)⟩,
   ⟨by decide, (history_audit_spec.2.2.1 1 [jobA] [appSubmitted]
      { application_ids := [100], status := some "shortlisted" } _ (by decide)).1⟩,
   ⟨by decide, (history_audit_spec.2.2.2.1 1 500 [jobA] [appShortlisted]
      { application_id := 100, scheduled_at := 50 } _ (by decide)).1⟩,
   ⟨by decide, history_audit_spec.2.2.2.2 5 ivNew appIS { status := some "completed" }
      _ (by decide)⟩⟩

/-- C3 counterexample: the single-application operation rejects
submitted → shortlisted with an InvalidTransition error, yet the bulk
operation applies exactly that change to the same application and counts it
as successfully updated — refuting the claim that bulk applies the same
status-update semantics and skips the applications that fail validation. -/
theorem bulk_skips_no_validation :
    applyStatusUpdate 1 0 appSubmitted { status := "shortlisted" } =
      .error (.invalidTransition "submitted" "shortlisted") ∧
    bulkStatusUpdate 1 [jobA] [appSubmitted]
        { application_ids := [100], status := some "shortlisted" } =
      .ok ([{ appSubmitted with status := "shortlisted" }],
           [{ applicationId := 100, old_status := "submitted",
              new_status := "shortlisted", changed_by := some 1, comment := "" }],
           1) := by
  exact ⟨by decide, by decide⟩

/-- C3 (amended): with a non-empty id list and a non-empty requested status,
the bulk operation always succeeds and performs NO transition validation: it
counts exactly the applications whose id is listed and whose job the
requesting employer owns (ids that resolve to nothing are silently skipped),
sets every one of them to the requested status unconditionally, and appends
one history row per counted application. -/
theorem bulkStatusUpdate_spec (employer : Nat) (jobs : List Job)
    (apps : List Application) (req : BulkRequest)
    (hids : req.application_ids ≠ []) (hst : req.status.getD "" ≠ "") :
    (bulkStatusUpdate employer jobs apps req).map (fun out => out.2.2) =
      .ok (apps.filter (fun a => req.application_ids.contains a.id &&
             ownsApp employer jobs a)).length ∧
    (bulkStatusUpdate employer jobs apps req).map
        (fun out => out.1.all (fun a => a.status == req.status.getD "")) = .ok true ∧
    (bulkStatusUpdate employer jobs apps req).map (fun out => out.1.length) =
      .ok (apps.filter (fun a => req.application_ids.contains a.id &&
             ownsApp employer jobs a)).length ∧
    (bulkStatusUpdate employer jobs apps req).map (fun out => out.2.1.length) =
      .ok (apps.filter (fun a => req.application_ids.contains a.id &&
             ownsApp employer jobs a)).length := by
  unfold bulkStatusUpdate
  rw [if_neg (not_or.mpr ⟨hids, hst⟩)]
  have hall : ∀ (l : List Application) (s : String),
      (l.map (fun a => { a with status := s })).all (fun a => a.status == s) = true := by
    intro l s
    rw [List.all_eq_true]
    intro x hx
    obtain ⟨a, -, rfl⟩ := List.mem_map.1 hx
    exact beq_self_eq_true s
  exact ⟨rfl, congrArg Except.ok (hall _ _), congrArg Except.ok (List.length_map _ _),
         congrArg Except.ok (List.length_map _ _)⟩

/-- A concrete bulk request targeting application 100. -/
def reqBulk : BulkRequest := { application_ids := [100], status := some "shortlisted" }

/-- Witness for C3 at a concrete input: employer 1 bulk-moves application
100 (in status `submitted`) to `shortlisted`; the lone owned listed
application is counted, updated, and given one history row. -/
theorem bulkStatusUpdate_spec_witness :
    reqBulk.application_ids ≠ [] ∧
    reqBulk.status.getD "" ≠ "" ∧
    ((bulkStatusUpdate 1 [jobA] [appSubmitted, appScored80] reqBulk).map
        (fun out => out.2.2) =
      .ok ([appSubmitted, appScored80].filter (fun a =>
        reqBulk.application_ids.contains a.id && ownsApp 1 [jobA] a)).length ∧
     (bulkStatusUpdate 1 [jobA] [appSubmitted, appScored80] reqBulk).map
        (fun out => out.1.all (fun a => a.status == reqBulk.status.getD "")) = .ok true ∧
     (bulkStatusUpdate 1 [jobA] [appSubmitted, appScored80] reqBulk).map
        (fun out => out.1.length) =
      .ok ([appSubmitted, appScored80].filter (fun a =>
        reqBulk.application_ids.contains a.id && ownsApp 1 [jobA] a)).length ∧
     (bulkStatusUpdate 1 [jobA] [appSubmitted, appScored80] reqBulk).map
        (fun out => out.2.1.length) =
      .ok ([appSubmitted, appScored80].filter (fun a =>
        reqBulk.application_ids.contains a.id && ownsApp 1 [jobA] a)).length) :=
  ⟨by decide, by decide,
   bulkStatusUpdate_spec 1 [jobA] [appSubmitted, appScored80] reqBulk
     (by decide) (by decide)⟩

/-- C4 counterexample: employer 2 does not own job 10 (it belongs to
employer 1); the interview-creation request for application 100 fails — but
with the serializer permission ValidationError (an HTTP 400), not with the
Forbidden (403) error the claim names. -/
theorem createInterview_notOwner_not_forbidden :
    createInterview 2 [jobA] [appShortlisted]
        { application_id := 100, scheduled_at := 50 } 500 =
      .error (.validation "You don\x27t have permission for this application") ∧
    ApiError.validation "You don\x27t have permission for this application" ≠
      ApiError.forbidden := by
  exact ⟨by decide, by decide⟩

/-- C4 (amended): whenever the target application exists and the requesting
employer does not own its job, interview creation fails with the serializer
permission ValidationError (HTTP 400, not 403) — so no interview is created
and the application is left unchanged (the operation aborts before any
write). -/
theorem createInterview_notOwner_spec (employer newId : Nat) (jobs : List Job)
    (apps : List Application) (req : InterviewCreateRequest)
    (app : Application) (job : Job)
    (happ : apps.find? (fun a => a.id == req.application_id) = some app)
    (hjob : jobs.find? (fun j => j.id == app.jobId) = some job)
    (hown : job.employer ≠ employer) :
    createInterview employer jobs apps req newId =
      .error (.validation "You don\x27t have permission for this application") := by
  unfold createInterview
  simp only [happ, hjob]
  rw [if_pos hown]

/-- Witness for C4 at a concrete input: employer 3 does not own job 10, and
interview creation for application 100 fails with the permission
ValidationError. -/
theorem createInterview_notOwner_spec_witness :
    ([appShortlisted].find? (fun a =>
        a.id == (InterviewCreateRequest.mk 100 "video" 50 60 "" "" "").application_id) =
      some appShortlisted) ∧
    ([jobA].find? (fun j => j.id == appShortlisted.jobId) = some jobA) ∧
    jobA.employer ≠ 3 ∧
    createInterview 3 [jobA] [appShortlisted]
        (InterviewCreateRequest.mk 100 "video" 50 60 "" "" "") 500 =
      .error (.validation "You don\x27t have permission for this application") :=
  ⟨by decide, by decide, by decide,
   createInterview_notOwner_spec 3 500 [jobA] [appShortlisted]
     (InterviewCreateRequest.mk 100 "video" 50 60 "" "" "") appShortlisted jobA
     (by decide) (by decide) (by decide)⟩

/-- C5 counterexample, via a reachable three-step trace: completing `ivNew`
cascades the application from `interview_scheduled` to `interviewed` and
stamps `completed_at`; creating a second interview moves the application
back to `interview_scheduled`; a further update that keeps `ivDone` in
status `completed` then leaves the application in `interview_scheduled` —
no cascade happens although the application is `interview_scheduled` at
that moment, refuting the claimed "iff". -/
theorem repeat_completed_no_cascade :
    updateInterview 5 ivNew appIS { status := some "completed" } =
      .ok (ivDone, appInterviewed, []) ∧
    createInterview 1 [jobA] [appInterviewed]
        { application_id := 100, scheduled_at := 60 } 501 =
      .ok (ivSecond, appIS, []) ∧
    updateInterview 9 ivDone appIS { status := some "completed" } =
      .ok (ivDone, appIS, []) ∧
    appIS.status = "interview_scheduled" ∧
    appIS.status ≠ "interviewed" := by
  exact ⟨by decide, by decide, by decide, by decide, by decide⟩

/-- C5 (amended): an interview update that sets status `completed` (and
passes the interview-type choice check) stamps `completed_at` exactly when
it was previously unset and never overwrites an existing stamp; the parent
application moves to `interviewed` exactly when this update is the one that
first stamps `completed_at` AND the application currently is
`interview_scheduled` — in every other situation, repeat completed updates
included, the application is left untouched. -/
theorem updateInterview_completed_spec (now : Nat) (iv : Interview)
    (app : Application) (req : InterviewUpdateRequest)
    (hs : req.status = some "completed")
    (ht : badChoice INTERVIEW_TYPE_CHOICES req.interview_type = false) :
    updateInterview now iv app req =
      .ok ({ applyInterviewUpdate iv req with
              completed_at :=
                if iv.completed_at = none then some now else iv.completed_at },
           (if iv.completed_at = none ∧ app.status = "interview_scheduled"
            then { app with status := "interviewed" } else app),
           []) ∧
    (applyInterviewUpdate iv req).status = "completed" ∧
    (applyInterviewUpdate iv req).completed_at = iv.completed_at := by
  have hb : badChoice INTERVIEW_STATUS_CHOICES req.status = false := by
    rw [hs]; decide
  refine ⟨?_, by simp [applyInterviewUpdate, hs], rfl⟩
  unfold updateInterview
  rw [if_neg (by simp [hb]), if_neg (by simp [ht])]
  simp only []
  rcases hc : iv.completed_at with _ | t <;>
    by_cases ha : app.status = "interview_scheduled" <;>
      simp [applyInterviewUpdate, hs, hc, ha]

/-- Witness for C5 at a concrete input: completing the fresh interview
`ivNew` stamps time 5 and cascades `appIS` to `interviewed`. -/
theorem updateInterview_completed_spec_witness :
    (InterviewUpdateRequest.mk none (some "completed") none none none none none none none).status
        = some "completed" ∧
    badChoice INTERVIEW_TYPE_CHOICES
      (InterviewUpdateRequest.mk none (some "completed") none none none none none none none).interview_type
        = false ∧
    (updateInterview 5 ivNew appIS
        (InterviewUpdateRequest.mk none (some "completed") none none none none none none none) =
      .ok ({ applyInterviewUpdate ivNew
               (InterviewUpdateRequest.mk none (some "completed") none none none none none none none) with
              completed_at :=
                if ivNew.completed_at = none then some 5 else ivNew.completed_at },
           (if ivNew.completed_at = none ∧ appIS.status = "interview_scheduled"
            then { appIS with status := "interviewed" } else appIS),
           []) ∧
     (applyInterviewUpdate ivNew
        (InterviewUpdateRequest.mk none (some "completed") none none none none none none none)).status
          = "completed" ∧
     (applyInterviewUpdate ivNew
        (InterviewUpdateRequest.mk none (some "completed") none none none none none none none)).completed_at
          = ivNew.completed_at) :=
  ⟨rfl, by decide,
   updateInterview_completed_spec 5 ivNew appIS
     (InterviewUpdateRequest.mk none (some "completed") none none none none none none none)
     rfl (by decide)⟩

/-- C9: the adapter score always lies in [0, 100] — never negative and
clamped at 100 even though the raw weighted sum of the skill, experience,
education and certification components can exceed 100 (it reaches 115 on
`candidateFull`/`jobReqSmall`) — and the async scoring task stores exactly
the adapter score and analysis on success, while on failure it leaves the
application, in particular its null `ai_match_score`, untouched. -/
theorem match_score_bounds :
    (∀ (c : CandidateData) (j : JobRequirements),
      0 ≤ (calculate_match_score c j).score ∧
        (calculate_match_score c j).score ≤ 100) ∧
    100 < rawMatchScore candidateFull jobReqSmall ∧
    (∀ (app : Application) (c : CandidateData) (j : JobRequirements) (now : Nat),
      calculate_ai_match_score app (some (c, j)) now =
        ({ app with
            ai_match_score := some (calculate_match_score c j).score,
            ai_analysis := some (calculate_match_score c j).analysis,
            ai_analyzed_at := some now }, true)) ∧
    (∀ (app : Application) (now : Nat),
      calculate_ai_match_score app none now = (app, false)) := by
  refine ⟨?_, ?_, fun _ _ _ _ => rfl, fun _ _ => rfl⟩
  · intro c j
    have hraw : 0 ≤ rawMatchScore c j := by
      unfold rawMatchScore
      refine add_nonneg (add_nonneg (add_nonneg (add_nonneg ?_ ?_) ?_) ?_) ?_ <;>
        (split <;> positivity)
    have hr2 : 0 ≤ round2 (rawMatchScore c j) := by
      unfold round2
      refine div_nonneg ?_ (by norm_num)
      have hfloor : (0 : ℤ) ≤ round (rawMatchScore c j * 100) := by
        rw [round_eq]
        refine Int.le_floor.mpr ?_
        push_cast
        nlinarith [hraw]
      exact_mod_cast hfloor
    exact ⟨le_min hr2 (by norm_num), min_le_right _ _⟩
  · norm_num [rawMatchScore, candidateFull, jobReqSmall, Finset.inter_self]

end SmartHR
